import Mathlib

/-!
Verification development for `src/tools.py` of the AITools repository.

The repository consists of one function, `evaluate_function_calls_metrics`,
which validates two lists of "function call" records (Python dictionaries)
and derives four metrics.  We shallowly embed the dynamically-typed Python
values in the inductive type `PyVal`, Python `TypeError` / `ValueError`
exceptions in `PyError`, and the Python `float` results (which are exact
quotients of small integers, or `float("inf")`) in `PyFloat` with an exact
rational payload.  Python's `json.loads` (used only for its success or
failure on `function.arguments`) is modelled by the syntactic JSON validity
checker `jsonValid`.  The `set` of reference names and the membership test
against it follow Python semantics: comparison uses Python `==` (`pyEq`,
under which `True == 1` and `False == 0`), and an unhashable value (a list
or a dict) raises `TypeError: unhashable type: ...` at the set construction
or at the membership test (`build_reference_function_names`,
`build_matched_calls`).
-/

/-- Shallow embedding of the Python values the evaluator manipulates:
`None`, booleans, integers, strings, lists, and string-keyed dictionaries. -/
inductive PyVal where
  | none : PyVal
  | bool : Bool → PyVal
  | int : Int → PyVal
  | str : String → PyVal
  | list : List PyVal → PyVal
  | dict : List (String × PyVal) → PyVal

mutual

/-- Decidable structural equality of the embedding `PyVal`, used to state
and decide theorems about it.  This is Lean equality of the embedded
values, not Python `==`: Python's cross-type numeric equality
(`True == 1`) is modelled separately by `pyEq`, which the matching logic
uses. -/
def pyDecEq : (a b : PyVal) → Decidable (a = b)
  | .none, .none => isTrue rfl
  | .none, .bool _ => isFalse (fun h => by injection h)
  | .none, .int _ => isFalse (fun h => by injection h)
  | .none, .str _ => isFalse (fun h => by injection h)
  | .none, .list _ => isFalse (fun h => by injection h)
  | .none, .dict _ => isFalse (fun h => by injection h)
  | .bool _, .none => isFalse (fun h => by injection h)
  | .bool a, .bool b =>
    match decEq a b with
    | isTrue h => isTrue (congrArg PyVal.bool h)
    | isFalse h => isFalse (fun hh => h (by injection hh))
  | .bool _, .int _ => isFalse (fun h => by injection h)
  | .bool _, .str _ => isFalse (fun h => by injection h)
  | .bool _, .list _ => isFalse (fun h => by injection h)
  | .bool _, .dict _ => isFalse (fun h => by injection h)
  | .int _, .none => isFalse (fun h => by injection h)
  | .int _, .bool _ => isFalse (fun h => by injection h)
  | .int a, .int b =>
    match decEq a b with
    | isTrue h => isTrue (congrArg PyVal.int h)
    | isFalse h => isFalse (fun hh => h (by injection hh))
  | .int _, .str _ => isFalse (fun h => by injection h)
  | .int _, .list _ => isFalse (fun h => by injection h)
  | .int _, .dict _ => isFalse (fun h => by injection h)
  | .str _, .none => isFalse (fun h => by injection h)
  | .str _, .bool _ => isFalse (fun h => by injection h)
  | .str _, .int _ => isFalse (fun h => by injection h)
  | .str a, .str b =>
    match decEq a b with
    | isTrue h => isTrue (congrArg PyVal.str h)
    | isFalse h => isFalse (fun hh => h (by injection hh))
  | .str _, .list _ => isFalse (fun h => by injection h)
  | .str _, .dict _ => isFalse (fun h => by injection h)
  | .list _, .none => isFalse (fun h => by injection h)
  | .list _, .bool _ => isFalse (fun h => by injection h)
  | .list _, .int _ => isFalse (fun h => by injection h)
  | .list _, .str _ => isFalse (fun h => by injection h)
  | .list a, .list b =>
    match pyDecEqList a b with
    | isTrue h => isTrue (congrArg PyVal.list h)
    | isFalse h => isFalse (fun hh => h (by injection hh))
  | .list _, .dict _ => isFalse (fun h => by injection h)
  | .dict _, .none => isFalse (fun h => by injection h)
  | .dict _, .bool _ => isFalse (fun h => by injection h)
  | .dict _, .int _ => isFalse (fun h => by injection h)
  | .dict _, .str _ => isFalse (fun h => by injection h)
  | .dict _, .list _ => isFalse (fun h => by injection h)
  | .dict a, .dict b =>
    match pyDecEqFields a b with
    | isTrue h => isTrue (congrArg PyVal.dict h)
    | isFalse h => isFalse (fun hh => h (by injection hh))

/-- Decidable equality on lists of embedded Python values. -/
def pyDecEqList : (a b : List PyVal) → Decidable (a = b)
  | [], [] => isTrue rfl
  | [], _ :: _ => isFalse (fun h => by injection h)
  | _ :: _, [] => isFalse (fun h => by injection h)
  | x :: xs, y :: ys =>
    match pyDecEq x y, pyDecEqList xs ys with
    | isTrue h1, isTrue h2 => isTrue (by rw [h1, h2])
    | isFalse h1, _ => isFalse (fun h => by
        injection h with hh ht
        exact h1 hh)
    | _, isFalse h2 => isFalse (fun h => by
        injection h with hh ht
        exact h2 ht)

/-- Decidable equality on dictionary entry lists. -/
def pyDecEqFields : (a b : List (String × PyVal)) → Decidable (a = b)
  | [], [] => isTrue rfl
  | [], _ :: _ => isFalse (fun h => by injection h)
  | _ :: _, [] => isFalse (fun h => by injection h)
  | (k, v) :: xs, (k2, v2) :: ys =>
    match decEq k k2, pyDecEq v v2, pyDecEqFields xs ys with
    | isTrue h1, isTrue h2, isTrue h3 => isTrue (by rw [h1, h2, h3])
    | isFalse h1, _, _ => isFalse (fun h => by
        injection h with hp ht
        exact h1 (congrArg Prod.fst hp))
    | _, isFalse h2, _ => isFalse (fun h => by
        injection h with hp ht
        exact h2 (congrArg Prod.snd hp))
    | _, _, isFalse h3 => isFalse (fun h => by
        injection h with hp ht
        exact h3 ht)

end

instance : DecidableEq PyVal := pyDecEq

/-- The two exception kinds the source function raises:
`TypeError` and `ValueError`, each carrying its message. -/
inductive PyError where
  | typeError (msg : String) : PyError
  | valueError (msg : String) : PyError
deriving DecidableEq, Repr

/-- A Python float as produced by the evaluator: either an exact rational
value (all finite values produced are exact quotients of small integers) or
positive infinity (`float("inf")`). -/
inductive PyFloat where
  | val (q : ℚ) : PyFloat
  | inf : PyFloat
deriving DecidableEq, Repr

/-- `type(x).__name__` for the embedded values. -/
def typeName : PyVal → String
  | .none => "NoneType"
  | .bool _ => "bool"
  | .int _ => "int"
  | .str _ => "str"
  | .list _ => "list"
  | .dict _ => "dict"

/-- `isinstance(x, int)`: in Python a `bool` is also an instance of `int`. -/
def pyIsInt : PyVal → Bool
  | .int _ => true
  | .bool _ => true
  | _ => false

/-- `isinstance(x, list)`. -/
def pyIsList : PyVal → Bool
  | .list _ => true
  | _ => false

/-- The integer value of an embedded `int` (with Python `bool` arithmetic
`True = 1`, `False = 0`); `0` on other constructors, where it is never used. -/
def pyIntValue : PyVal → Int
  | .int n => n
  | .bool b => if b then 1 else 0
  | _ => 0

/-- Dictionary lookup `d[k]`, defaulting to `None` when the key is absent
(the source only indexes keys it has already checked for presence). -/
def lookupD (fields : List (String × PyVal)) (key : String) : PyVal :=
  match fields.lookup key with
  | some v => v
  | Option.none => .none

/-! ### A model of `json.loads` success

The source uses `json.loads(function_obj["arguments"])` only for whether it
raises, so we model it by a recursive-descent validity checker over the
characters of the argument string, following the grammar Python's `json`
module accepts by default: RFC 8259 JSON values plus the extra literals
`NaN`, `Infinity` and `-Infinity`.  Punctuation characters are compared via
their code points. -/

/-- JSON insignificant whitespace: space, tab, line feed, carriage return. -/
def isJsonWs (c : Char) : Bool :=
  c.toNat = 32 || c.toNat = 9 || c.toNat = 10 || c.toNat = 13

/-- Drop leading JSON whitespace. -/
def skipWs : List Char → List Char
  | [] => []
  | c :: cs => if isJsonWs c then skipWs cs else c :: cs

/-- Strip the characters of `s` from the front of `l`, or fail. -/
def stripChars : List Char → List Char → Option (List Char)
  | [], l => some l
  | _ :: _, [] => Option.none
  | c :: cs, d :: ds => if c = d then stripChars cs ds else Option.none

/-- Strip the literal word `s` from the front of `l`, or fail. -/
def stripLit (s : String) (l : List Char) : Option (List Char) :=
  stripChars s.data l

/-- Is `c` a hexadecimal digit? -/
def isHexDigit (c : Char) : Bool :=
  c.isDigit || (97 ≤ c.toNat && c.toNat ≤ 102) || (65 ≤ c.toNat && c.toNat ≤ 70)

/-- Consume the rest of a JSON string (the opening quote already consumed):
unescaped characters must not be control characters, escapes are
`\" \\ \/ \b \f \n \r \t` and `\uXXXX`.  Returns the input after the
closing quote. -/
def jsonStringRest : List Char → Option (List Char)
  | [] => Option.none
  | c :: cs =>
    if c.toNat = 34 then some cs
    else if c.toNat = 92 then
      match cs with
      | [] => Option.none
      | e :: cs2 =>
        if e = 'u' then
          match cs2 with
          | h1 :: h2 :: h3 :: h4 :: cs3 =>
            if isHexDigit h1 && isHexDigit h2 && isHexDigit h3 && isHexDigit h4 then
              jsonStringRest cs3
            else Option.none
          | _ => Option.none
        else if e.toNat = 34 || e.toNat = 92 || e.toNat = 47 ||
            e = 'b' || e = 'f' || e = 'n' || e = 'r' || e = 't' then
          jsonStringRest cs2
        else Option.none
    else if c.toNat < 32 then Option.none
    else jsonStringRest cs

/-- Consume a maximal run of decimal digits, returning how many and the rest. -/
def spanDigits : List Char → Nat × List Char
  | [] => (0, [])
  | c :: cs =>
    if c.isDigit then
      let r := spanDigits cs
      (r.1 + 1, r.2)
    else (0, c :: cs)

/-- Consume the optional fraction and exponent parts of a JSON number. -/
def jsonFracExp (l : List Char) : Option (List Char) :=
  let afterFrac : Option (List Char) :=
    match l with
    | c :: cs =>
      if c.toNat = 46 then
        match spanDigits cs with
        | (0, _) => Option.none
        | (_ + 1, r) => some r
      else some l
    | [] => some l
  match afterFrac with
  | Option.none => Option.none
  | some l2 =>
    match l2 with
    | c :: cs =>
      if c = 'e' || c = 'E' then
        let cs2 :=
          match cs with
          | d :: ds => if d.toNat = 43 || d.toNat = 45 then ds else cs
          | [] => cs
        match spanDigits cs2 with
        | (0, _) => Option.none
        | (_ + 1, r) => some r
      else some l2
    | [] => some l2

/-- Consume a JSON number (`-? (0 | [1-9][0-9]*) frac? exp?`). -/
def jsonNumber (l : List Char) : Option (List Char) :=
  let l1 :=
    match l with
    | c :: cs => if c.toNat = 45 then cs else l
    | [] => l
  match l1 with
  | [] => Option.none
  | c :: cs =>
    if c.toNat = 48 then jsonFracExp cs
    else if c.isDigit then jsonFracExp (spanDigits cs).2
    else Option.none

mutual

/-- Consume one JSON value (with leading whitespace), fuelled. -/
def jsonValue (fuel : Nat) (l : List Char) : Option (List Char) :=
  match fuel with
  | 0 => Option.none
  | fuel + 1 =>
    match skipWs l with
    | [] => Option.none
    | c :: cs =>
      if c.toNat = 123 then
        match skipWs cs with
        | [] => Option.none
        | d :: ds => if d.toNat = 125 then some ds else jsonMembers fuel (d :: ds)
      else if c.toNat = 91 then
        match skipWs cs with
        | [] => Option.none
        | d :: ds => if d.toNat = 93 then some ds else jsonElements fuel (d :: ds)
      else if c.toNat = 34 then jsonStringRest cs
      else if c = 't' then stripLit "rue" cs
      else if c = 'f' then stripLit "alse" cs
      else if c = 'n' then stripLit "ull" cs
      else if c = 'N' then stripLit "aN" cs
      else if c = 'I' then stripLit "nfinity" cs
      else if c.toNat = 45 then
        match cs with
        | d :: ds => if d = 'I' then stripLit "nfinity" ds else jsonNumber (c :: cs)
        | [] => Option.none
      else if c.isDigit then jsonNumber (c :: cs)
      else Option.none

/-- Consume the members of a JSON object and the closing brace, fuelled. -/
def jsonMembers (fuel : Nat) (l : List Char) : Option (List Char) :=
  match fuel with
  | 0 => Option.none
  | fuel + 1 =>
    match skipWs l with
    | [] => Option.none
    | c :: cs =>
      if c.toNat = 34 then
        match jsonStringRest cs with
        | Option.none => Option.none
        | some r1 =>
          match skipWs r1 with
          | [] => Option.none
          | d :: ds =>
            if d.toNat = 58 then
              match jsonValue fuel ds with
              | Option.none => Option.none
              | some r2 =>
                match skipWs r2 with
                | [] => Option.none
                | e :: es =>
                  if e.toNat = 44 then jsonMembers fuel es
                  else if e.toNat = 125 then some es
                  else Option.none
            else Option.none
      else Option.none

/-- Consume the elements of a JSON array and the closing bracket, fuelled. -/
def jsonElements (fuel : Nat) (l : List Char) : Option (List Char) :=
  match fuel with
  | 0 => Option.none
  | fuel + 1 =>
    match jsonValue fuel l with
    | Option.none => Option.none
    | some r1 =>
      match skipWs r1 with
      | [] => Option.none
      | e :: es =>
        if e.toNat = 44 then jsonElements fuel es
        else if e.toNat = 93 then some es
        else Option.none

end

/-- Does the whole string `s` parse as one JSON document?  This models
`json.loads(s)` succeeding. -/
def jsonValid (s : String) : Bool :=
  match jsonValue (s.length + 1) s.data with
  | some rest => (skipWs rest).isEmpty
  | Option.none => false

/-- Success of `json.loads(function_obj["arguments"])`: the argument must be
a string (a non-string raises `TypeError`, which the source catches together
with `JSONDecodeError`) whose text is valid JSON. -/
def jsonLoadsOk : PyVal → Bool
  | .str s => jsonValid s
  | _ => false

/-! ### The evaluator, translated from `src/tools.py` -/

/-- The first of the listed required keys that is absent from the
dictionary, if any — the `for field in required_fields` loops of
`validate_function_call_format` raise at exactly this key. -/
def firstMissingField (fields : List (String × PyVal)) : List String → Option String
  | [] => Option.none
  | f :: fs =>
    if (fields.lookup f).isSome then firstMissingField fields fs else some f

/-- Translation of the inner `validate_function_call_format(item, item_type,
index)` of `src/tools.py`: checks, in source order, that the record is a
dict; that it has the keys `id`, `type`, `function`; that `type` equals
`"function"`; that `function` is a dict with keys `name` and `arguments`;
and that `json.loads` accepts `arguments`.  Raises `ValueError` (with the
message of the source, minus the interpolated offending values in the two
messages that embed them) at the first violation. -/
def validate_function_call_format (item : PyVal) (item_type : String)
    (index : Nat) : Except PyError Unit :=
  match item with
  | .dict fields =>
    match firstMissingField fields ["id", "type", "function"] with
    | some f =>
      .error (.valueError (item_type ++ "[" ++ toString index ++ "] 缺少必需字段: " ++ f))
    | Option.none =>
      if lookupD fields "type" ≠ .str "function" then
        .error (.valueError
          (item_type ++ "[" ++ toString index ++ "] 的 type 字段必须为 \x27function\x27"))
      else
        match lookupD fields "function" with
        | .dict ffields =>
          match firstMissingField ffields ["name", "arguments"] with
          | some f =>
            .error (.valueError
              (item_type ++ "[" ++ toString index ++ "] 的 function 缺少必需字段: " ++ f))
          | Option.none =>
            if jsonLoadsOk (lookupD ffields "arguments") then .ok ()
            else
              .error (.valueError
                (item_type ++ "[" ++ toString index ++
                  "] 的 function.arguments 不是有效的 JSON 字符串"))
        | _ =>
          .error (.valueError
            (item_type ++ "[" ++ toString index ++ "] 的 function 字段必须是 dict 类型"))
  | _ =>
    .error (.valueError
      (item_type ++ "[" ++ toString index ++ "] 必须是 dict 类型，当前类型: " ++ typeName item))

/-- The `for i, item in enumerate(items): validate_function_call_format(item,
item_type, i)` loops of steps 7a/7b, starting at index `i`: validates each
record in order and propagates the first error. -/
def validate_sequence (items : List PyVal) (item_type : String) (i : Nat) :
    Except PyError Unit :=
  match items with
  | [] => .ok ()
  | x :: xs =>
    match validate_function_call_format x item_type i with
    | .ok _ => validate_sequence xs item_type (i + 1)
    | .error e => .error e

/-- `item["function"]["name"]` for a (validated) record. -/
def call_name (item : PyVal) : PyVal :=
  match item with
  | .dict fields =>
    match lookupD fields "function" with
    | .dict ffields => lookupD ffields "name"
    | _ => .none
  | _ => .none

/-- Is the value hashable in Python?  `None`, booleans, integers and
strings are; lists and dictionaries are not, and `hash(x)` on them raises
`TypeError: unhashable type: ...`. -/
def pyHashable : PyVal → Bool
  | .list _ => false
  | .dict _ => false
  | _ => true

/-- Python `==` on the values the matching logic compares.  Python's
numeric cross-type equality makes `True == 1` and `False == 0`; every
other comparison between values of our universe coincides with structural
equality.  (Containers compare elementwise in Python, but the matching
raises `TypeError` on any unhashable value before ever comparing one, so
the structural fallback on containers is never reached there.) -/
def pyEq (a b : PyVal) : Bool :=
  match a, b with
  | .bool x, .int n => (if x then (1 : Int) else 0) = n
  | .int n, .bool x => n = (if x then (1 : Int) else 0)
  | _, _ => a = b

/-- The names collected by step 8, `ref["function"]["name"]` for each
reference in order; the set built from them is only ever used for
membership tests, for which this list (up to `pyEq`-membership) is
equivalent. -/
def reference_function_names (references : List PyVal) : List PyVal :=
  references.map call_name

/-- Step 8: `{ref["function"]["name"] for ref in references}`.  The set
comprehension hashes each name in iteration order and raises
`TypeError: unhashable type: ...` at the first list- or dict-valued name;
otherwise it yields the collected names. -/
def build_reference_function_names (references : List PyVal) :
    Except PyError (List PyVal) :=
  match references with
  | [] => .ok []
  | r :: rs =>
    if pyHashable (call_name r) then
      match build_reference_function_names rs with
      | .ok names => .ok (call_name r :: names)
      | .error e => .error e
    else
      .error (.typeError ("unhashable type: \x27" ++ typeName (call_name r) ++ "\x27"))

/-- The matched sequence on the success path of step 9: the predictions
whose `function.name` is `pyEq`-equal to some reference name, kept in
their original order. -/
def matched_calls (predictions references : List PyVal) : List PyVal :=
  predictions.filter
    (fun pred =>
      (reference_function_names references).any (fun x => pyEq x (call_name pred)))

/-- Step 9: the `for pred in predictions` loop.  Each membership test
`function_name in reference_function_names` first hashes the prediction's
name, raising `TypeError: unhashable type: ...` at the first list- or
dict-valued one; otherwise the matched predictions are collected in
order. -/
def build_matched_calls (predictions names : List PyVal) :
    Except PyError (List PyVal) :=
  match predictions with
  | [] => .ok []
  | p :: ps =>
    if pyHashable (call_name p) then
      match build_matched_calls ps names with
      | .ok rest =>
        .ok (if names.any (fun x => pyEq x (call_name p)) then p :: rest else rest)
      | .error e => .error e
    else
      .error (.typeError ("unhashable type: \x27" ++ typeName (call_name p) ++ "\x27"))

/-- The dictionary returned by `evaluate_function_calls_metrics` (its four
fixed keys become fields; `fcm` is the `"fcm"` entry). -/
structure EvalResult where
  fcm : List PyVal
  tool_recognition_rate : Bool
  correct_workflow_selection : Bool
  hallucination_rate : PyFloat
deriving DecidableEq

/-- Translation of `evaluate_function_calls_metrics(predictions, references,
number)` from `src/tools.py`, step for step: the `isinstance` checks on the
three arguments and the non-negativity check on `number` (steps 1–3), the
tool recognition rate (step 4), the empty-list short-circuit (step 5), the
format validation of every record (steps 6–7), the name matching (steps
8–9) and the derived metrics (step 10). -/
def evaluate_function_calls_metrics (predictions references number : PyVal) :
    Except PyError EvalResult :=
  match predictions with
  | .list preds =>
    match references with
    | .list refs =>
      if !(pyIsInt number) then
        .error (.typeError ("number 必须是 int 类型，当前类型: " ++ typeName number))
      else if pyIntValue number < 0 then
        .error (.valueError ("number 必须是非负数，当前值: " ++ toString (pyIntValue number)))
      else
        let tool_recognition_rate := decide (0 < preds.length)
        if preds.isEmpty || refs.isEmpty then
          .ok { fcm := [],
                tool_recognition_rate := tool_recognition_rate,
                correct_workflow_selection := false,
                hallucination_rate :=
                  if preds.length = 0 then PyFloat.val 0 else PyFloat.inf }
        else
          match validate_sequence preds "predictions" 0 with
          | .error e => .error e
          | .ok _ =>
            match validate_sequence refs "references" 0 with
            | .error e => .error e
            | .ok _ =>
              match build_reference_function_names refs with
              | .error e => .error e
              | .ok names =>
              match build_matched_calls preds names with
              | .error e => .error e
              | .ok mc =>
              let intersection_count : Int := mc.length
              let predictions_count : Int := preds.length
              let references_count : Int := refs.length
              let correct_workflow_selection :=
                decide (pyIntValue number ≤ intersection_count)
              let predictions_only_count := predictions_count - intersection_count
              let hallucination_rate :=
                if references_count = 0 then
                  if 0 < predictions_only_count then PyFloat.inf else PyFloat.val 0
                else PyFloat.val ((predictions_only_count : ℚ) / (references_count : ℚ))
              .ok { fcm := mc,
                    tool_recognition_rate := tool_recognition_rate,
                    correct_workflow_selection := correct_workflow_selection,
                    hallucination_rate := hallucination_rate }
    | _ => .error (.typeError ("references 必须是 list 类型，当前类型: " ++ typeName references))
  | _ => .error (.typeError ("predictions 必须是 list 类型，当前类型: " ++ typeName predictions))

/-- A record satisfying the Call Record shape rules, stated declaratively
(independently of the control flow of `validate_function_call_format`): a
mapping carrying the keys `id`, `type` and `function`, whose `type` is the
string `"function"`, whose `function` is a mapping carrying the keys `name`
and `arguments`, and whose `arguments` is accepted by `json.loads`. -/
def wellFormedRecord (item : PyVal) : Bool :=
  match item with
  | .dict fields =>
    (fields.lookup "id").isSome && (fields.lookup "type").isSome &&
    (fields.lookup "function").isSome &&
    (lookupD fields "type" = .str "function") &&
    (match lookupD fields "function" with
     | .dict ffields =>
       (ffields.lookup "name").isSome && (ffields.lookup "arguments").isSome &&
       jsonLoadsOk (lookupD ffields "arguments")
     | _ => false)
  | _ => false

/-- A convenient constructor for a Call Record with the given `id`, `name`
and `arguments` values. -/
def mkCallRecord (idv namev argsv : PyVal) : PyVal :=
  .dict [("id", idv), ("type", .str "function"),
         ("function", .dict [("name", namev), ("arguments", argsv)])]

/-- A well-formed sample Call Record with the given `id` and `name` strings
and `"{}"` as arguments. -/
def sampleRec (idv namev : String) : PyVal :=
  mkCallRecord (.str idv) (.str namev) (.str "\x7b\x7d")

/-- Decidable equality of evaluation outcomes, used to check the model on
concrete inputs. -/
instance {ε α : Type} [DecidableEq ε] [DecidableEq α] : DecidableEq (Except ε α) :=
  fun a b =>
    match a, b with
    | .ok x, .ok y =>
      match decEq x y with
      | isTrue h => isTrue (congrArg Except.ok h)
      | isFalse h => isFalse (fun hh => h (Except.ok.inj hh))
    | .error x, .error y =>
      match decEq x y with
      | isTrue h => isTrue (congrArg Except.error h)
      | isFalse h => isFalse (fun hh => h (Except.error.inj hh))
    | .ok _, .error _ => isFalse (fun hh => Except.noConfusion hh)
    | .error _, .ok _ => isFalse (fun hh => Except.noConfusion hh)

/-! ### Helper lemmas -/

/-- `validate_function_call_format` succeeds exactly on the records that
satisfy the declarative Call Record shape `wellFormedRecord`. -/
theorem validate_ok_iff (item : PyVal) (t : String) (i : Nat) :
    validate_function_call_format item t i = .ok () ↔ wellFormedRecord item = true := by
  cases item with
  | dict fields =>
    simp only [validate_function_call_format, wellFormedRecord, firstMissingField]
    by_cases h1 : (fields.lookup "id").isSome
    case neg => simp [h1]
    by_cases h2 : (fields.lookup "type").isSome
    case neg => simp [h1, h2]
    by_cases h3 : (fields.lookup "function").isSome
    case neg => simp [h1, h2, h3]
    by_cases h4 : lookupD fields "type" = PyVal.str "function"
    case neg => simp [h1, h2, h3, h4]
    cases hf : lookupD fields "function" with
    | dict ffields =>
      by_cases h5 : (ffields.lookup "name").isSome
      case neg => simp [h1, h2, h3, h4, hf, h5]
      by_cases h6 : (ffields.lookup "arguments").isSome
      case neg => simp [h1, h2, h3, h4, hf, h5, h6]
      by_cases h7 : jsonLoadsOk (lookupD ffields "arguments")
      · simp [h1, h2, h3, h4, hf, h5, h6, h7]
      · simp [h1, h2, h3, h4, hf, h5, h6, h7]
    | none => simp [h1, h2, h3, h4, hf]
    | bool b => simp [h1, h2, h3, h4, hf]
    | int k => simp [h1, h2, h3, h4, hf]
    | str s => simp [h1, h2, h3, h4, hf]
    | list xs => simp [h1, h2, h3, h4, hf]
  | none => simp [validate_function_call_format, wellFormedRecord]
  | bool b => simp [validate_function_call_format, wellFormedRecord]
  | int k => simp [validate_function_call_format, wellFormedRecord]
  | str s => simp [validate_function_call_format, wellFormedRecord]
  | list xs => simp [validate_function_call_format, wellFormedRecord]

/-- Every error `validate_function_call_format` produces is a `ValueError`. -/
theorem validate_error_value (item : PyVal) (t : String) (i : Nat) (e : PyError)
    (he : validate_function_call_format item t i = .error e) :
    ∃ m, e = .valueError m := by
  unfold validate_function_call_format at he
  repeat' split at he
  all_goals first
    | exact Except.noConfusion he
    | (injection he with h1
       exact ⟨_, h1.symm⟩)

/-- `validate_sequence` succeeds exactly when every record of the sequence
is well-formed. -/
theorem validate_sequence_ok_iff (items : List PyVal) (t : String) :
    ∀ s, validate_sequence items t s = .ok () ↔ items.all wellFormedRecord = true := by
  induction items with
  | nil => intro s; simp [validate_sequence]
  | cons x xs ih =>
    intro s
    simp only [validate_sequence, List.all_cons]
    cases hv : validate_function_call_format x t s with
    | ok u =>
      cases u
      have hx := (validate_ok_iff x t s).mp hv
      simp [hx, ih (s + 1)]
    | error e =>
      have hx : wellFormedRecord x = false := by
        cases hw : wellFormedRecord x
        · rfl
        · rw [(validate_ok_iff x t s).mpr hw] at hv; cases hv
      simp [hx]

/-- `validate_sequence` stops at the first ill-formed record and propagates
exactly that record's validation error. -/
theorem validate_sequence_first_error (t : String) :
    ∀ (items : List PyVal) (s i : Nat) (hi : i < items.length),
    ((items.take i).all wellFormedRecord) = true →
    wellFormedRecord (items.get ⟨i, hi⟩) = false →
    ∃ e, validate_function_call_format (items.get ⟨i, hi⟩) t (s + i) = .error e ∧
         validate_sequence items t s = .error e := by
  intro items
  induction items with
  | nil => intro s i hi; exact absurd hi (by simp)
  | cons x xs ih =>
    intro s i hi hpre hbad
    cases i with
    | zero =>
      simp only [List.get] at hbad ⊢
      cases hv : validate_function_call_format x t s with
      | ok u =>
        cases u
        rw [(validate_ok_iff x t s).mp hv] at hbad
        cases hbad
      | error e =>
        refine ⟨e, by simpa using hv, ?_⟩
        simp [validate_sequence, hv]
    | succ j =>
      simp only [List.take_succ_cons, List.all_cons, Bool.and_eq_true] at hpre
      have hx : wellFormedRecord x = true := hpre.1
      have hvx : validate_function_call_format x t s = .ok () :=
        (validate_ok_iff x t s).mpr hx
      have hj : j < xs.length := by simpa using hi
      obtain ⟨e, he1, he2⟩ := ih (s + 1) j hj hpre.2 hbad
      refine ⟨e, ?_, ?_⟩
      · have harith : s + (j + 1) = s + 1 + j := by omega
        rw [harith]
        exact he1
      · simp [validate_sequence, hvx, he2]

/-- With no references, no prediction is matched. -/
theorem matched_calls_nil_right (preds : List PyVal) :
    matched_calls preds [] = [] := by
  simp [matched_calls, reference_function_names]

/-- When every reference name is hashable, the step-8 set construction
succeeds and collects exactly the reference names. -/
theorem build_reference_function_names_ok (refs : List PyVal)
    (h : (refs.all (fun r => pyHashable (call_name r))) = true) :
    build_reference_function_names refs = .ok (reference_function_names refs) := by
  induction refs with
  | nil => rfl
  | cons r rs ih =>
    simp only [List.all_cons, Bool.and_eq_true] at h
    simp [build_reference_function_names, reference_function_names, h.1, ih h.2]

/-- Inversion of a successful set construction: every reference name was
hashable and the collected names are exactly `reference_function_names`. -/
theorem build_reference_function_names_ok_inv (refs names : List PyVal)
    (h : build_reference_function_names refs = .ok names) :
    names = reference_function_names refs ∧
    (refs.all (fun r => pyHashable (call_name r))) = true := by
  induction refs generalizing names with
  | nil =>
    simp only [build_reference_function_names] at h
    injection h with h
    simp [← h, reference_function_names]
  | cons r rs ih =>
    simp only [build_reference_function_names] at h
    by_cases hh : pyHashable (call_name r) = true
    · rw [if_pos hh] at h
      cases hb : build_reference_function_names rs with
      | error e => rw [hb] at h; exact Except.noConfusion h
      | ok ns =>
        rw [hb] at h
        injection h with h
        obtain ⟨h1, h2⟩ := ih ns hb
        subst h1
        simp [← h, reference_function_names, hh, h2]
    · rw [if_neg hh] at h
      exact Except.noConfusion h

/-- When every prediction name is hashable, the step-9 loop succeeds and
selects exactly the `pyEq`-matched predictions in order. -/
theorem build_matched_calls_ok (preds names : List PyVal)
    (h : (preds.all (fun p => pyHashable (call_name p))) = true) :
    build_matched_calls preds names =
      .ok (preds.filter (fun p => names.any (fun x => pyEq x (call_name p)))) := by
  induction preds with
  | nil => rfl
  | cons p ps ih =>
    simp only [List.all_cons, Bool.and_eq_true] at h
    simp only [build_matched_calls, h.1, if_true, ih h.2, List.filter_cons]

/-- Inversion of a successful step-9 loop: every prediction name was
hashable and the result is the `pyEq`-filter of the predictions. -/
theorem build_matched_calls_ok_inv (preds names mc : List PyVal)
    (h : build_matched_calls preds names = .ok mc) :
    mc = preds.filter (fun p => names.any (fun x => pyEq x (call_name p))) ∧
    (preds.all (fun p => pyHashable (call_name p))) = true := by
  induction preds generalizing mc with
  | nil =>
    simp only [build_matched_calls] at h
    injection h with h
    simp [← h]
  | cons p ps ih =>
    simp only [build_matched_calls] at h
    by_cases hh : pyHashable (call_name p) = true
    · rw [if_pos hh] at h
      cases hb : build_matched_calls ps names with
      | error e => rw [hb] at h; exact Except.noConfusion h
      | ok rest =>
        rw [hb] at h
        injection h with h
        obtain ⟨h1, h2⟩ := ih rest hb
        subst h1
        refine ⟨?_, by simp [hh, h2]⟩
        rw [← h, List.filter_cons]
    · rw [if_neg hh] at h
      exact Except.noConfusion h

/-- A sequence containing an unhashable reference name makes the step-8
set construction fail. -/
theorem build_reference_function_names_error (refs : List PyVal)
    (h : (refs.all (fun r => pyHashable (call_name r))) = false) :
    ∃ e, build_reference_function_names refs = .error e := by
  induction refs with
  | nil => simp at h
  | cons r rs ih =>
    by_cases hh : pyHashable (call_name r) = true
    · have h2 : (rs.all (fun r => pyHashable (call_name r))) = false := by
        simpa [hh] using h
      obtain ⟨e, he⟩ := ih h2
      exact ⟨e, by simp [build_reference_function_names, hh, he]⟩
    · have hh2 : pyHashable (call_name r) = false := by simpa using hh
      exact ⟨.typeError ("unhashable type: \x27" ++ typeName (call_name r) ++ "\x27"),
        by simp [build_reference_function_names, hh2]⟩

/-- A sequence containing an unhashable prediction name makes the step-9
membership loop fail. -/
theorem build_matched_calls_error (preds names : List PyVal)
    (h : (preds.all (fun p => pyHashable (call_name p))) = false) :
    ∃ e, build_matched_calls preds names = .error e := by
  induction preds with
  | nil => simp at h
  | cons p ps ih =>
    by_cases hh : pyHashable (call_name p) = true
    · have h2 : (ps.all (fun p => pyHashable (call_name p))) = false := by
        simpa [hh] using h
      obtain ⟨e, he⟩ := ih h2
      exact ⟨e, by simp [build_matched_calls, hh, he]⟩
    · have hh2 : pyHashable (call_name p) = false := by simpa using hh
      exact ⟨.typeError ("unhashable type: \x27" ++ typeName (call_name p) ++ "\x27"),
        by simp [build_matched_calls, hh2]⟩

/-- `any` over a deduplicated list agrees with `any` over the list:
set-membership tests ignore multiplicity. -/
theorem any_dedup (l : List PyVal) (f : PyVal → Bool) :
    l.dedup.any f = l.any f := by
  by_cases h : l.any f = true
  · rw [h]
    obtain ⟨y, hy, hfy⟩ := List.any_eq_true.mp h
    exact List.any_eq_true.mpr ⟨y, List.mem_dedup.mpr hy, hfy⟩
  · have h2 : l.any f = false := by simpa using h
    rw [h2]
    by_contra hc
    have h3 : l.dedup.any f = true := by simpa using hc
    obtain ⟨y, hy, hfy⟩ := List.any_eq_true.mp h3
    exact h (List.any_eq_true.mpr ⟨y, List.mem_dedup.mp hy, hfy⟩)

/-- The result returned on the step-5 short-circuit, for any in-range
integer threshold and any record contents. -/
theorem evaluate_shortcircuit_eq (preds refs : List PyVal) (nv : PyVal)
    (hint : pyIsInt nv = true) (hge : 0 ≤ pyIntValue nv)
    (hsc : (preds.isEmpty || refs.isEmpty) = true) :
    evaluate_function_calls_metrics (.list preds) (.list refs) nv =
      .ok { fcm := [],
            tool_recognition_rate := decide (0 < preds.length),
            correct_workflow_selection := false,
            hallucination_rate :=
              if preds.length = 0 then PyFloat.val 0 else PyFloat.inf } := by
  simp [evaluate_function_calls_metrics, hint, not_lt.mpr hge, hsc]

/-- The result returned on the main path: both sequences non-empty and
fully validated, and every name hashable. -/
theorem evaluate_main_eq (preds refs : List PyVal) (nv : PyVal)
    (hint : pyIsInt nv = true) (hge : 0 ≤ pyIntValue nv)
    (hsc : (preds.isEmpty || refs.isEmpty) = false)
    (hvp : validate_sequence preds "predictions" 0 = .ok ())
    (hvr : validate_sequence refs "references" 0 = .ok ())
    (hhr : (refs.all (fun r => pyHashable (call_name r))) = true)
    (hhp : (preds.all (fun p => pyHashable (call_name p))) = true) :
    evaluate_function_calls_metrics (.list preds) (.list refs) nv =
      .ok { fcm := matched_calls preds refs,
            tool_recognition_rate := decide (0 < preds.length),
            correct_workflow_selection :=
              decide (pyIntValue nv ≤ ((matched_calls preds refs).length : Int)),
            hallucination_rate :=
              if ((refs.length : Int) = 0) then
                (if 0 < (preds.length : Int) - ((matched_calls preds refs).length : Int)
                 then PyFloat.inf else PyFloat.val 0)
              else PyFloat.val
                ((((preds.length : Int) - ((matched_calls preds refs).length : Int)) : ℚ) /
                  ((refs.length : Int) : ℚ)) } := by
  have h1 := build_reference_function_names_ok refs hhr
  have h2 := build_matched_calls_ok preds (reference_function_names refs) hhp
  simp [evaluate_function_calls_metrics, hint, not_lt.mpr hge, hsc, hvp, hvr, h1, h2,
    matched_calls]

/-- A validation error in `predictions` aborts the whole evaluation with
exactly that error. -/
theorem evaluate_error_of_pred_error (preds refs : List PyVal) (nv : PyVal)
    (hint : pyIsInt nv = true) (hge : 0 ≤ pyIntValue nv)
    (hsc : (preds.isEmpty || refs.isEmpty) = false) (e : PyError)
    (he : validate_sequence preds "predictions" 0 = .error e) :
    evaluate_function_calls_metrics (.list preds) (.list refs) nv = .error e := by
  simp [evaluate_function_calls_metrics, hint, not_lt.mpr hge, hsc, he]

/-- When `predictions` validates, a validation error in `references` aborts
the whole evaluation with exactly that error. -/
theorem evaluate_error_of_ref_error (preds refs : List PyVal) (nv : PyVal)
    (hint : pyIsInt nv = true) (hge : 0 ≤ pyIntValue nv)
    (hsc : (preds.isEmpty || refs.isEmpty) = false)
    (hvp : validate_sequence preds "predictions" 0 = .ok ()) (e : PyError)
    (he : validate_sequence refs "references" 0 = .error e) :
    evaluate_function_calls_metrics (.list preds) (.list refs) nv = .error e := by
  simp [evaluate_function_calls_metrics, hint, not_lt.mpr hge, hsc, hvp, he]

/-- After validation, a `TypeError` from the step-8 set construction aborts
the whole evaluation with exactly that error. -/
theorem evaluate_error_of_ref_names_error (preds refs : List PyVal) (nv : PyVal)
    (hint : pyIsInt nv = true) (hge : 0 ≤ pyIntValue nv)
    (hsc : (preds.isEmpty || refs.isEmpty) = false)
    (hvp : validate_sequence preds "predictions" 0 = .ok ())
    (hvr : validate_sequence refs "references" 0 = .ok ()) (e : PyError)
    (he : build_reference_function_names refs = .error e) :
    evaluate_function_calls_metrics (.list preds) (.list refs) nv = .error e := by
  simp [evaluate_function_calls_metrics, hint, not_lt.mpr hge, hsc, hvp, hvr, he]

/-- After validation and a successful set construction, a `TypeError` from
the step-9 membership loop aborts the whole evaluation with exactly that
error. -/
theorem evaluate_error_of_matched_error (preds refs : List PyVal) (nv : PyVal)
    (hint : pyIsInt nv = true) (hge : 0 ≤ pyIntValue nv)
    (hsc : (preds.isEmpty || refs.isEmpty) = false)
    (hvp : validate_sequence preds "predictions" 0 = .ok ())
    (hvr : validate_sequence refs "references" 0 = .ok ())
    (names : List PyVal)
    (hbr : build_reference_function_names refs = .ok names) (e : PyError)
    (he : build_matched_calls preds names = .error e) :
    evaluate_function_calls_metrics (.list preds) (.list refs) nv = .error e := by
  simp [evaluate_function_calls_metrics, hint, not_lt.mpr hge, hsc, hvp, hvr, hbr, he]

/-- Inversion of a successful evaluation: the threshold was an in-range
integer, and either the empty-input short-circuit was taken or both
sequences are non-empty, validated without error, and every name was
hashable. -/
theorem evaluate_ok_inv (preds refs : List PyVal) (nv : PyVal) (r : EvalResult)
    (hok : evaluate_function_calls_metrics (.list preds) (.list refs) nv = .ok r) :
    pyIsInt nv = true ∧ 0 ≤ pyIntValue nv ∧
    ((preds.isEmpty || refs.isEmpty) = true ∨
     ((preds.isEmpty || refs.isEmpty) = false ∧
      validate_sequence preds "predictions" 0 = .ok () ∧
      validate_sequence refs "references" 0 = .ok () ∧
      (refs.all (fun r => pyHashable (call_name r))) = true ∧
      (preds.all (fun p => pyHashable (call_name p))) = true)) := by
  have hint : pyIsInt nv = true := by
    by_contra hc
    have hf : pyIsInt nv = false := by simpa using hc
    rw [show evaluate_function_calls_metrics (.list preds) (.list refs) nv =
        .error (.typeError ("number 必须是 int 类型，当前类型: " ++ typeName nv)) from by
      simp [evaluate_function_calls_metrics, hf]] at hok
    exact Except.noConfusion hok
  have hge : 0 ≤ pyIntValue nv := by
    by_contra hc
    have hneg : pyIntValue nv < 0 := not_le.mp hc
    rw [show evaluate_function_calls_metrics (.list preds) (.list refs) nv =
        .error (.valueError ("number 必须是非负数，当前值: " ++ toString (pyIntValue nv))) from by
      simp [evaluate_function_calls_metrics, hint, hneg]] at hok
    exact Except.noConfusion hok
  refine ⟨hint, hge, ?_⟩
  by_cases hsc : (preds.isEmpty || refs.isEmpty) = true
  · exact Or.inl hsc
  · have hsc2 : (preds.isEmpty || refs.isEmpty) = false := by simpa using hsc
    right
    cases hvp : validate_sequence preds "predictions" 0 with
    | error e =>
      rw [evaluate_error_of_pred_error preds refs nv hint hge hsc2 e hvp] at hok
      exact Except.noConfusion hok
    | ok u =>
      cases u
      cases hvr : validate_sequence refs "references" 0 with
      | error e =>
        rw [evaluate_error_of_ref_error preds refs nv hint hge hsc2 hvp e hvr] at hok
        exact Except.noConfusion hok
      | ok u2 =>
        cases u2
        by_cases hhr : (refs.all (fun r => pyHashable (call_name r))) = true
        · by_cases hhp : (preds.all (fun p => pyHashable (call_name p))) = true
          · exact ⟨hsc2, rfl, rfl, hhr, hhp⟩
          · obtain ⟨e, he⟩ := build_matched_calls_error preds
              (reference_function_names refs) (by simpa using hhp)
            rw [evaluate_error_of_matched_error preds refs nv hint hge hsc2 hvp hvr
              (reference_function_names refs)
              (build_reference_function_names_ok refs hhr) e he] at hok
            exact Except.noConfusion hok
        · obtain ⟨e, he⟩ := build_reference_function_names_error refs (by simpa using hhr)
          rw [evaluate_error_of_ref_names_error preds refs nv hint hge hsc2 hvp hvr
            e he] at hok
          exact Except.noConfusion hok

/-! ### Claim theorems -/

/-- C3: when `predictions` or `references` is the empty sequence (and the
list-type and threshold checks pass), per-record format validation and
matching are skipped entirely — the call succeeds with no well-formedness
hypothesis on the records of the non-empty side — and the result is
produced directly: `fcm = []`, `correct_workflow_selection = false`,
`tool_recognition_rate = (len(predictions) > 0)`, and `hallucination_rate`
from the emptiness rule, with all four metrics present. -/
theorem empty_input_short_circuit (preds refs : List PyVal) (n : Int)
    (hn : 0 ≤ n) (h : preds = [] ∨ refs = []) :
    evaluate_function_calls_metrics (.list preds) (.list refs) (.int n) =
      .ok { fcm := [],
            tool_recognition_rate := decide (0 < preds.length),
            correct_workflow_selection := false,
            hallucination_rate :=
              if preds.length = 0 then PyFloat.val 0 else PyFloat.inf } := by
  have hsc : (preds.isEmpty || refs.isEmpty) = true := by
    rcases h with h | h <;> simp [h]
  exact evaluate_shortcircuit_eq preds refs (.int n) rfl hn hsc

/-- Witness for C3 at a malformed (non-dict) record in the non-empty
`predictions` side and empty `references`. -/
theorem empty_input_short_circuit_witness :
    (0 : Int) ≤ 1 ∧ ([PyVal.int 5] = [] ∨ ([] : List PyVal) = []) ∧
    evaluate_function_calls_metrics (.list [.int 5]) (.list []) (.int 1) =
      .ok { fcm := [],
            tool_recognition_rate := decide (0 < [PyVal.int 5].length),
            correct_workflow_selection := false,
            hallucination_rate :=
              if [PyVal.int 5].length = 0 then PyFloat.val 0 else PyFloat.inf } :=
  ⟨by decide, Or.inr rfl,
   empty_input_short_circuit [.int 5] [] 1 (by decide) (Or.inr rfl)⟩

/-- C9: the threshold checks run before the empty-input short-circuit, so a
negative integer threshold raises the `ValueError` even when both input
lists are empty. -/
theorem negative_threshold_precedes_short_circuit (preds refs : List PyVal)
    (k : Int) (hk : k < 0) :
    evaluate_function_calls_metrics (.list preds) (.list refs) (.int k) =
      .error (.valueError ("number 必须是非负数，当前值: " ++ toString k)) := by
  simp [evaluate_function_calls_metrics, pyIsInt, pyIntValue, hk]

/-- Witness for C9 at `predictions = references = []` and threshold `-1`. -/
theorem negative_threshold_precedes_short_circuit_witness :
    (-1 : Int) < 0 ∧
    evaluate_function_calls_metrics (.list []) (.list []) (.int (-1)) =
      .error (.valueError ("number 必须是非负数，当前值: " ++ toString (-1 : Int))) :=
  ⟨by decide, negative_threshold_precedes_short_circuit [] [] (-1) (by decide)⟩

/-- C6: a non-list `predictions` or `references` argument, or a non-int
`number`, raises a `TypeError` whose message names the offending parameter
and its observed type; an in-range-typed but negative `number` raises a
`ValueError` reporting the offending value.  (As in Python, a `bool`
counts as an instance of `int`.) -/
theorem argument_type_and_threshold_errors (p r n : PyVal) :
    (pyIsList p = false →
      evaluate_function_calls_metrics p r n =
        .error (.typeError ("predictions 必须是 list 类型，当前类型: " ++ typeName p))) ∧
    (∀ preds, p = .list preds → pyIsList r = false →
      evaluate_function_calls_metrics p r n =
        .error (.typeError ("references 必须是 list 类型，当前类型: " ++ typeName r))) ∧
    (∀ preds refs, p = .list preds → r = .list refs → pyIsInt n = false →
      evaluate_function_calls_metrics p r n =
        .error (.typeError ("number 必须是 int 类型，当前类型: " ++ typeName n))) ∧
    (∀ preds refs, p = .list preds → r = .list refs →
      pyIsInt n = true → pyIntValue n < 0 →
      evaluate_function_calls_metrics p r n =
        .error (.valueError ("number 必须是非负数，当前值: " ++ toString (pyIntValue n)))) := by
  refine ⟨?_, ?_, ?_, ?_⟩
  · intro h
    cases p <;> simp_all [evaluate_function_calls_metrics, pyIsList]
  · intro preds hp h
    subst hp
    cases r <;> simp_all [evaluate_function_calls_metrics, pyIsList]
  · intro preds refs hp hr h
    subst hp; subst hr
    simp [evaluate_function_calls_metrics, h]
  · intro preds refs hp hr h hneg
    subst hp; subst hr
    simp [evaluate_function_calls_metrics, h, hneg]

/-- Witness for C6: each of the four violations at a concrete input. -/
theorem argument_type_and_threshold_errors_witness :
    (evaluate_function_calls_metrics (.str "x") (.list []) (.int 1) =
      .error (.typeError ("predictions 必须是 list 类型，当前类型: " ++ typeName (.str "x")))) ∧
    (evaluate_function_calls_metrics (.list []) (.int 7) (.int 1) =
      .error (.typeError ("references 必须是 list 类型，当前类型: " ++ typeName (.int 7)))) ∧
    (evaluate_function_calls_metrics (.list []) (.list []) (.str "t") =
      .error (.typeError ("number 必须是 int 类型，当前类型: " ++ typeName (.str "t")))) ∧
    (evaluate_function_calls_metrics (.list []) (.list []) (.int (-2)) =
      .error (.valueError ("number 必须是非负数，当前值: " ++ toString (pyIntValue (.int (-2)))))) :=
  ⟨(argument_type_and_threshold_errors (.str "x") (.list []) (.int 1)).1 rfl,
   (argument_type_and_threshold_errors (.list []) (.int 7) (.int 1)).2.1 [] rfl rfl,
   (argument_type_and_threshold_errors (.list []) (.list []) (.str "t")).2.2.1 [] [] rfl rfl rfl,
   (argument_type_and_threshold_errors (.list []) (.list []) (.int (-2))).2.2.2 [] [] rfl rfl
     rfl (by decide)⟩

/-- C7: whenever the evaluation returns a result, its
`tool_recognition_rate` is exactly the boolean `len(predictions) > 0`,
independently of the contents of `references` and of the threshold. -/
theorem tool_recognition_rate_eq (preds refs : List PyVal) (nv : PyVal) (r : EvalResult)
    (hok : evaluate_function_calls_metrics (.list preds) (.list refs) nv = .ok r) :
    r.tool_recognition_rate = decide (0 < preds.length) := by
  obtain ⟨hint, hge, hcase⟩ := evaluate_ok_inv preds refs nv r hok
  rcases hcase with hsc | ⟨hsc, hvp, hvr, hhr, hhp⟩
  · rw [evaluate_shortcircuit_eq preds refs nv hint hge hsc] at hok
    rw [← Except.ok.inj hok]
  · rw [evaluate_main_eq preds refs nv hint hge hsc hvp hvr hhr hhp] at hok
    rw [← Except.ok.inj hok]

/-- Witness for C7 on the short-circuit path with empty predictions and a
non-empty references list. -/
theorem tool_recognition_rate_eq_witness :
    evaluate_function_calls_metrics (.list []) (.list [sampleRec "1" "Z"]) (.int 1) =
      .ok { fcm := [], tool_recognition_rate := false,
            correct_workflow_selection := false,
            hallucination_rate := PyFloat.val 0 } ∧
    ({ fcm := [], tool_recognition_rate := false, correct_workflow_selection := false,
       hallucination_rate := PyFloat.val 0 } : EvalResult).tool_recognition_rate =
      decide (0 < ([] : List PyVal).length) :=
  ⟨rfl, tool_recognition_rate_eq [] [sampleRec "1" "Z"] (.int 1) _ rfl⟩

/-- C4: whenever the evaluation returns a result,
`correct_workflow_selection` is the boolean `M >= threshold` (`M` the
number of matched records) and is forced to `false` whenever either input
is empty — even when `M = 0 >= threshold` would hold. -/
theorem correct_workflow_selection_formula (preds refs : List PyVal) (n : Int)
    (r : EvalResult)
    (hok : evaluate_function_calls_metrics (.list preds) (.list refs) (.int n) = .ok r) :
    r.correct_workflow_selection =
      (!(preds.isEmpty || refs.isEmpty) &&
        decide (n ≤ ((matched_calls preds refs).length : Int))) := by
  obtain ⟨hint, hge, hcase⟩ := evaluate_ok_inv preds refs (.int n) r hok
  rcases hcase with hsc | ⟨hsc, hvp, hvr, hhr, hhp⟩
  · rw [evaluate_shortcircuit_eq preds refs (.int n) hint hge hsc] at hok
    rw [← Except.ok.inj hok]
    simp [hsc]
  · rw [evaluate_main_eq preds refs (.int n) hint hge hsc hvp hvr hhr hhp] at hok
    rw [← Except.ok.inj hok]
    simp [hsc, pyIntValue]

/-- Witness for C4 at empty inputs and threshold `0`, where `M = 0 >= 0`
would hold and the result is still `false`. -/
theorem correct_workflow_selection_formula_witness :
    evaluate_function_calls_metrics (.list []) (.list []) (.int 0) =
      .ok { fcm := [], tool_recognition_rate := false,
            correct_workflow_selection := false,
            hallucination_rate := PyFloat.val 0 } ∧
    ({ fcm := [], tool_recognition_rate := false, correct_workflow_selection := false,
       hallucination_rate := PyFloat.val 0 } : EvalResult).correct_workflow_selection =
      (!(List.isEmpty ([] : List PyVal) || List.isEmpty ([] : List PyVal)) &&
        decide ((0 : Int) ≤ ((matched_calls [] []).length : Int))) :=
  ⟨rfl, correct_workflow_selection_formula [] [] 0 _ rfl⟩

/-- Counterexample to C1 as frozen: both sequences are non-empty and every
record passes format validation (validation never checks the name's type),
yet no matched sequence is produced at all — the list-valued reference
name is unhashable, so the step-8 set construction raises `TypeError`
instead of returning a result. -/
theorem fcm_unhashable_reference_counterexample :
    validate_sequence [sampleRec "1" "A"] "predictions" 0 = .ok () ∧
    validate_sequence [mkCallRecord (.str "2") (.list [.int 1]) (.str "\x7b\x7d")]
        "references" 0 = .ok () ∧
    evaluate_function_calls_metrics (.list [sampleRec "1" "A"])
        (.list [mkCallRecord (.str "2") (.list [.int 1]) (.str "\x7b\x7d")]) (.int 1) =
      .error (.typeError "unhashable type: \x27list\x27") :=
  ⟨rfl, rfl, by decide⟩

/-- C1 (amended): for non-empty, well-formed prediction and reference
sequences in which every record's `function.name` is hashable, the matched
sequence `fcm` is exactly the predictions, in original relative order,
whose `function.name` is equal — by Python `==`, i.e. `pyEq`, under which
`True == 1` — to a member of the set of distinct reference names (`dedup`
of the collected names): reference-side multiplicity collapses and
prediction-side multiplicity is preserved.  A well-formed record with an
unhashable (list- or dict-valued) name instead raises a `TypeError`; see
`fcm_unhashable_reference_counterexample`. -/
theorem fcm_eq_filter_by_reference_names (preds refs : List PyVal) (n : Int)
    (hn : 0 ≤ n) (hp : preds ≠ []) (hr : refs ≠ [])
    (hvp : validate_sequence preds "predictions" 0 = .ok ())
    (hvr : validate_sequence refs "references" 0 = .ok ())
    (hhr : (refs.all (fun r => pyHashable (call_name r))) = true)
    (hhp : (preds.all (fun p => pyHashable (call_name p))) = true) :
    ∃ r, evaluate_function_calls_metrics (.list preds) (.list refs) (.int n) = .ok r ∧
      r.fcm = preds.filter
        (fun p => (reference_function_names refs).dedup.any
          (fun x => pyEq x (call_name p))) := by
  have hsc : (preds.isEmpty || refs.isEmpty) = false := by
    simp [List.isEmpty_eq_false, hp, hr]
  refine ⟨_, evaluate_main_eq preds refs (.int n) rfl hn hsc hvp hvr hhr hhp, ?_⟩
  show matched_calls preds refs = _
  unfold matched_calls
  apply List.filter_congr
  intro x hx
  rw [any_dedup]

/-- Witness for C1 at predictions `[A, A, B]` and references `[A, C]`:
the matched sequence is `[A, A]` of length 2. -/
theorem fcm_eq_filter_by_reference_names_witness :
    (0 : Int) ≤ 1 ∧
    [sampleRec "1" "A", sampleRec "2" "A", sampleRec "3" "B"] ≠ [] ∧
    [sampleRec "4" "A", sampleRec "5" "C"] ≠ [] ∧
    validate_sequence [sampleRec "1" "A", sampleRec "2" "A", sampleRec "3" "B"]
      "predictions" 0 = .ok () ∧
    validate_sequence [sampleRec "4" "A", sampleRec "5" "C"] "references" 0 = .ok () ∧
    ([sampleRec "4" "A", sampleRec "5" "C"].all
      (fun r => pyHashable (call_name r))) = true ∧
    ([sampleRec "1" "A", sampleRec "2" "A", sampleRec "3" "B"].all
      (fun p => pyHashable (call_name p))) = true ∧
    (∃ r, evaluate_function_calls_metrics
        (.list [sampleRec "1" "A", sampleRec "2" "A", sampleRec "3" "B"])
        (.list [sampleRec "4" "A", sampleRec "5" "C"]) (.int 1) = .ok r ∧
      r.fcm = [sampleRec "1" "A", sampleRec "2" "A", sampleRec "3" "B"].filter
        (fun p => (reference_function_names [sampleRec "4" "A", sampleRec "5" "C"]).dedup.any
          (fun x => pyEq x (call_name p)))) ∧
    [sampleRec "1" "A", sampleRec "2" "A", sampleRec "3" "B"].filter
        (fun p => (reference_function_names [sampleRec "4" "A", sampleRec "5" "C"]).dedup.any
          (fun x => pyEq x (call_name p))) =
      [sampleRec "1" "A", sampleRec "2" "A"] :=
  ⟨by decide, by decide, by decide, rfl, rfl, by decide, by decide,
   fcm_eq_filter_by_reference_names _ _ 1 (by decide) (by decide) (by decide) rfl rfl
     (by decide) (by decide),
   by decide⟩

/-- C2: whenever the evaluation returns a result, its `hallucination_rate`
follows the documented rule: `0.0` when there are no predictions;
otherwise, with no references, `+infinity` when `P - M > 0` and `0.0`
otherwise; otherwise the exact ratio `(P - M) / R`. -/
theorem hallucination_rate_formula (preds refs : List PyVal) (n : Int) (r : EvalResult)
    (hok : evaluate_function_calls_metrics (.list preds) (.list refs) (.int n) = .ok r) :
    r.hallucination_rate =
      (if preds.length = 0 then PyFloat.val 0
       else if refs.length = 0 then
         (if 0 < (preds.length : Int) - ((matched_calls preds refs).length : Int)
          then PyFloat.inf else PyFloat.val 0)
       else PyFloat.val
         ((((preds.length : Int) - ((matched_calls preds refs).length : Int)) : ℚ) /
           ((refs.length : Int) : ℚ))) := by
  obtain ⟨hint, hge, hcase⟩ := evaluate_ok_inv preds refs (.int n) r hok
  rcases hcase with hsc | ⟨hsc, hvp, hvr, hhr, hhp⟩
  · rw [evaluate_shortcircuit_eq preds refs (.int n) hint hge hsc] at hok
    rw [← Except.ok.inj hok]
    by_cases hp : preds.length = 0
    · simp [hp]
    · have hre : refs.isEmpty = true := by
        rcases (by simpa using hsc : preds.isEmpty = true ∨ refs.isEmpty = true) with h | h
        · exact absurd (List.isEmpty_iff_length_eq_zero.mp h) hp
        · exact h
      have hrl : refs.length = 0 := List.isEmpty_iff_length_eq_zero.mp hre
      have hm : matched_calls preds refs = [] := by
        rw [List.length_eq_zero.mp hrl]
        exact matched_calls_nil_right preds
      have hpos : (0 : Int) < (preds.length : Int) :=
        Int.natCast_pos.mpr (Nat.pos_of_ne_zero hp)
      simp [hp, hrl, hm, hpos]
  · rw [evaluate_main_eq preds refs (.int n) hint hge hsc hvp hvr hhr hhp] at hok
    rw [← Except.ok.inj hok]
    have h2 : preds.isEmpty = false ∧ refs.isEmpty = false := by simpa using hsc
    have hp : ¬(preds.length = 0) := fun h =>
      (List.isEmpty_eq_false.mp h2.1) (List.length_eq_zero.mp h)
    have hr2 : ¬(refs.length = 0) := fun h =>
      (List.isEmpty_eq_false.mp h2.2) (List.length_eq_zero.mp h)
    simp [hp, hr2, Int.natCast_eq_zero]

/-- Witness for C2 at 2 predictions, 2 references and 1 match: the rate is
`(2 - 1) / 2 = 1/2`. -/
theorem hallucination_rate_formula_witness :
    evaluate_function_calls_metrics
        (.list [sampleRec "1" "X", sampleRec "2" "Y"])
        (.list [sampleRec "3" "X", sampleRec "4" "Z"]) (.int 1) =
      .ok { fcm := [sampleRec "1" "X"], tool_recognition_rate := true,
            correct_workflow_selection := true,
            hallucination_rate := PyFloat.val (1 / 2) } ∧
    ({ fcm := [sampleRec "1" "X"], tool_recognition_rate := true,
       correct_workflow_selection := true,
       hallucination_rate := PyFloat.val (1 / 2) } : EvalResult).hallucination_rate =
      (if [sampleRec "1" "X", sampleRec "2" "Y"].length = 0 then PyFloat.val 0
       else if [sampleRec "3" "X", sampleRec "4" "Z"].length = 0 then
         (if 0 < ([sampleRec "1" "X", sampleRec "2" "Y"].length : Int) -
              ((matched_calls [sampleRec "1" "X", sampleRec "2" "Y"]
                [sampleRec "3" "X", sampleRec "4" "Z"]).length : Int)
          then PyFloat.inf else PyFloat.val 0)
       else PyFloat.val
         (((([sampleRec "1" "X", sampleRec "2" "Y"].length : Int) -
             ((matched_calls [sampleRec "1" "X", sampleRec "2" "Y"]
               [sampleRec "3" "X", sampleRec "4" "Z"]).length : Int)) : ℚ) /
           (([sampleRec "3" "X", sampleRec "4" "Z"].length : Int) : ℚ))) :=
  ⟨rfl,
   hallucination_rate_formula [sampleRec "1" "X", sampleRec "2" "Y"]
     [sampleRec "3" "X", sampleRec "4" "Z"] 1
     { fcm := [sampleRec "1" "X"], tool_recognition_rate := true,
       correct_workflow_selection := true,
       hallucination_rate := PyFloat.val (1 / 2) } rfl⟩

/-- C8: threshold monotonicity — for a fixed input pair that evaluates
successfully, if `correct_workflow_selection` holds at threshold `t` then
it also holds at every threshold `t'` with `0 ≤ t' ≤ t`. -/
theorem threshold_monotonicity (preds refs : List PyVal) (t tp : Int) (r : EvalResult)
    (hok : evaluate_function_calls_metrics (.list preds) (.list refs) (.int t) = .ok r)
    (htrue : r.correct_workflow_selection = true)
    (h0 : 0 ≤ tp) (hle : tp ≤ t) :
    ∃ rp, evaluate_function_calls_metrics (.list preds) (.list refs) (.int tp) = .ok rp ∧
      rp.correct_workflow_selection = true := by
  obtain ⟨hint, hge, hcase⟩ := evaluate_ok_inv preds refs (.int t) r hok
  rcases hcase with hsc | ⟨hsc, hvp, hvr, hhr, hhp⟩
  · rw [evaluate_shortcircuit_eq preds refs (.int t) hint hge hsc] at hok
    rw [← Except.ok.inj hok] at htrue
    cases htrue
  · rw [evaluate_main_eq preds refs (.int t) hint hge hsc hvp hvr hhr hhp] at hok
    rw [← Except.ok.inj hok] at htrue
    have hM : t ≤ ((matched_calls preds refs).length : Int) := by
      simpa [pyIntValue] using of_decide_eq_true htrue
    refine ⟨_, evaluate_main_eq preds refs (.int tp) rfl h0 hsc hvp hvr hhr hhp, ?_⟩
    simp only [pyIntValue]
    exact decide_eq_true (le_trans hle hM)

/-- Witness for C8 at one matching record, `t = 1`, `t' = 0`; the rate
`(1 - 1) / 1` is written as the evaluator produces it. -/
theorem threshold_monotonicity_witness :
    evaluate_function_calls_metrics (.list [sampleRec "1" "X"])
        (.list [sampleRec "2" "X"]) (.int 1) =
      .ok { fcm := [sampleRec "1" "X"], tool_recognition_rate := true,
            correct_workflow_selection := true,
            hallucination_rate := PyFloat.val
              ((([sampleRec "1" "X"].length : Int) -
                  ((matched_calls [sampleRec "1" "X"] [sampleRec "2" "X"]).length : Int) : Int) /
                (([sampleRec "2" "X"].length : Int) : ℚ)) } ∧
    ({ fcm := [sampleRec "1" "X"], tool_recognition_rate := true,
       correct_workflow_selection := true,
       hallucination_rate := PyFloat.val
         ((([sampleRec "1" "X"].length : Int) -
             ((matched_calls [sampleRec "1" "X"] [sampleRec "2" "X"]).length : Int) : Int) /
           (([sampleRec "2" "X"].length : Int) : ℚ)) } : EvalResult).correct_workflow_selection
      = true ∧
    (0 : Int) ≤ 0 ∧ (0 : Int) ≤ 1 ∧
    (∃ rp, evaluate_function_calls_metrics (.list [sampleRec "1" "X"])
        (.list [sampleRec "2" "X"]) (.int 0) = .ok rp ∧
      rp.correct_workflow_selection = true) :=
  ⟨rfl, rfl, by decide, by decide,
   threshold_monotonicity [sampleRec "1" "X"] [sampleRec "2" "X"] 1 0
     { fcm := [sampleRec "1" "X"], tool_recognition_rate := true,
       correct_workflow_selection := true,
       hallucination_rate := PyFloat.val
         ((([sampleRec "1" "X"].length : Int) -
             ((matched_calls [sampleRec "1" "X"] [sampleRec "2" "X"]).length : Int) : Int) /
           (([sampleRec "2" "X"].length : Int) : ℚ)) }
     rfl rfl (by decide) (by decide)⟩

/-- C5: for non-empty sequences (with the type and threshold checks
passing), per-record validation visits all predictions in index order and
then all references in index order, and the evaluation aborts with the
`ValueError` of the first record violating the Call Record shape rules
(collected in `wellFormedRecord`): all records before the first violation
well-formed, the violating record's own validation error is raised, and no
metrics are computed. -/
theorem validation_raises_at_first_violation (preds refs : List PyVal) (n : Int)
    (hn : 0 ≤ n) (hp : preds ≠ []) (hr : refs ≠ []) :
    (∀ i (hi : i < preds.length),
        ((preds.take i).all wellFormedRecord) = true →
        wellFormedRecord (preds.get ⟨i, hi⟩) = false →
        ∃ m, validate_function_call_format (preds.get ⟨i, hi⟩) "predictions" i =
              .error (.valueError m) ∧
          evaluate_function_calls_metrics (.list preds) (.list refs) (.int n) =
              .error (.valueError m)) ∧
    (∀ i (hi : i < refs.length),
        (preds.all wellFormedRecord) = true →
        ((refs.take i).all wellFormedRecord) = true →
        wellFormedRecord (refs.get ⟨i, hi⟩) = false →
        ∃ m, validate_function_call_format (refs.get ⟨i, hi⟩) "references" i =
              .error (.valueError m) ∧
          evaluate_function_calls_metrics (.list preds) (.list refs) (.int n) =
              .error (.valueError m)) := by
  have hsc : (preds.isEmpty || refs.isEmpty) = false := by
    simp [List.isEmpty_eq_false, hp, hr]
  constructor
  · intro i hi hpre hbad
    obtain ⟨e, he1, he2⟩ := validate_sequence_first_error "predictions" preds 0 i hi hpre hbad
    obtain ⟨m, hm⟩ := validate_error_value _ _ _ _ he1
    subst hm
    exact ⟨m, by simpa using he1,
      evaluate_error_of_pred_error preds refs (.int n) rfl hn hsc _ he2⟩
  · intro i hi hall hpre hbad
    have hvp : validate_sequence preds "predictions" 0 = .ok () :=
      (validate_sequence_ok_iff preds "predictions" 0).mpr hall
    obtain ⟨e, he1, he2⟩ := validate_sequence_first_error "references" refs 0 i hi hpre hbad
    obtain ⟨m, hm⟩ := validate_error_value _ _ _ _ he1
    subst hm
    exact ⟨m, by simpa using he1,
      evaluate_error_of_ref_error preds refs (.int n) rfl hn hsc hvp _ he2⟩

/-- Witness for C5: the second prediction record is a bare integer, the
sole reference is also malformed; the raised error is the one of
`predictions[1]`, reached after the well-formed `predictions[0]`. -/
theorem validation_raises_at_first_violation_witness :
    (0 : Int) ≤ 1 ∧
    [sampleRec "1" "A", PyVal.int 7] ≠ [] ∧ [PyVal.str "bad"] ≠ [] ∧
    (([sampleRec "1" "A", PyVal.int 7].take 1).all wellFormedRecord) = true ∧
    wellFormedRecord ([sampleRec "1" "A", PyVal.int 7].get ⟨1, by decide⟩) = false ∧
    (∃ m, validate_function_call_format
          ([sampleRec "1" "A", PyVal.int 7].get ⟨1, by decide⟩) "predictions" 1 =
            .error (.valueError m) ∧
        evaluate_function_calls_metrics (.list [sampleRec "1" "A", PyVal.int 7])
            (.list [PyVal.str "bad"]) (.int 1) =
          .error (.valueError m)) :=
  ⟨by decide, by decide, by decide, by decide, by decide,
   (validation_raises_at_first_violation [sampleRec "1" "A", PyVal.int 7]
       [PyVal.str "bad"] 1 (by decide) (by decide) (by decide)).1
     1 (by decide) (by decide) (by decide)⟩

/-- Counterexample to C10 as frozen: a record whose `name` is the
(unhashable) list `[1]` passes validation, but it is not "matched purely
by equality" — the membership test of step 9 raises `TypeError` and the
evaluation returns no result at all. -/
theorem call_name_unhashable_counterexample :
    validate_function_call_format
        (mkCallRecord (.str "1") (.list [.int 1]) (.str "\x7b\x7d")) "predictions" 0 =
      .ok () ∧
    evaluate_function_calls_metrics
        (.list [mkCallRecord (.str "1") (.list [.int 1]) (.str "\x7b\x7d")])
        (.list [sampleRec "2" "A"]) (.int 1) =
      .error (.typeError "unhashable type: \x27list\x27") :=
  ⟨rfl, by decide⟩

/-- C10 (amended): validation never checks the type of `call.name`: a
record whose `name` is any value (for instance a number) passes validation
provided the other shape rules hold.  If the name is hashable, the record
is then matched purely by Python equality (`pyEq`, under which `True`
equals `1`) — it is selected exactly when a `pyEq`-equal value occurs
among the reference names; if the name is unhashable (a list or dict), the
step-9 membership test instead raises a `TypeError` (see
`call_name_unhashable_counterexample`). -/
theorem call_name_type_never_checked (idv namev argsv : PyVal) (t : String) (i : Nat)
    (refs : List PyVal) (hargs : jsonLoadsOk argsv = true) :
    validate_function_call_format (mkCallRecord idv namev argsv) t i = .ok () ∧
    (pyHashable namev = true →
      matched_calls [mkCallRecord idv namev argsv] refs =
        (if (reference_function_names refs).any (fun x => pyEq x namev)
         then [mkCallRecord idv namev argsv] else [])) ∧
    (pyHashable namev = false →
      build_matched_calls [mkCallRecord idv namev argsv]
          (reference_function_names refs) =
        .error (.typeError ("unhashable type: \x27" ++ typeName namev ++ "\x27"))) := by
  have hcn : call_name (mkCallRecord idv namev argsv) = namev := rfl
  refine ⟨?_, ?_, ?_⟩
  · rw [validate_ok_iff]
    simp [wellFormedRecord, mkCallRecord, lookupD, List.lookup, hargs]
  · intro _
    simp only [matched_calls, List.filter, hcn]
    by_cases hmem : ((reference_function_names refs).any (fun x => pyEq x namev)) = true <;>
      simp [hmem]
  · intro h
    simp [build_matched_calls, hcn, h]

/-- Witness for C10: a record whose `name` is the boolean `True` passes
validation and is matched against a reference named by the integer `1`,
since Python equality makes `True == 1`. -/
theorem call_name_type_never_checked_witness :
    jsonLoadsOk (.str "\x7b\x7d") = true ∧
    pyHashable (.bool true) = true ∧
    (validate_function_call_format
        (mkCallRecord (.str "1") (.bool true) (.str "\x7b\x7d")) "predictions" 0 =
          .ok () ∧
      (pyHashable (.bool true) = true →
        matched_calls [mkCallRecord (.str "1") (.bool true) (.str "\x7b\x7d")]
            [mkCallRecord (.str "2") (.int 1) (.str "\x7b\x7d")] =
          (if (reference_function_names
                [mkCallRecord (.str "2") (.int 1) (.str "\x7b\x7d")]).any
              (fun x => pyEq x (.bool true))
           then [mkCallRecord (.str "1") (.bool true) (.str "\x7b\x7d")] else [])) ∧
      (pyHashable (.bool true) = false →
        build_matched_calls [mkCallRecord (.str "1") (.bool true) (.str "\x7b\x7d")]
            (reference_function_names
              [mkCallRecord (.str "2") (.int 1) (.str "\x7b\x7d")]) =
          .error (.typeError ("unhashable type: \x27" ++ typeName (.bool true) ++ "\x27")))) ∧
    matched_calls [mkCallRecord (.str "1") (.bool true) (.str "\x7b\x7d")]
        [mkCallRecord (.str "2") (.int 1) (.str "\x7b\x7d")] =
      [mkCallRecord (.str "1") (.bool true) (.str "\x7b\x7d")] :=
  ⟨by decide, by decide,
   call_name_type_never_checked (.str "1") (.bool true) (.str "\x7b\x7d")
     "predictions" 0 [mkCallRecord (.str "2") (.int 1) (.str "\x7b\x7d")] (by decide),
   by decide⟩
